import Mathlib

/-!
# Verification of the `derivation` module of cesrox

Shallow embedding of `src/derivation/mod.rs`, `src/derivation/self_addressing.rs`
and `src/derivation/self_signing.rs`.

Rust `&str` values are modelled as their UTF-8 byte sequences (`List Nat`,
each entry a byte), because the source indexes strings at byte granularity:
`s.get(..1)` succeeds only when byte index 1 is a char boundary, and
`&s[1..2]` / `&s[1..4]` panic when the end index is out of bounds or not a
char boundary.  A fallible Rust function returning `Result<T, Error>` is
modelled as `RustResult Error T`, whose third constructor records a Rust
panic (an out-of-bounds string slice).
-/

/-- The error type of the crate (`src/error.rs` is not included under `src/`;
only the `DeserializeError(String)` constructor is used by the derivation
module, and it is modelled here with its message payload). -/
inductive Error where
  | DeserializeError : String → Error
deriving DecidableEq, Repr

/-- Outcome of running a fallible Rust function: `ok`, an `Err` return, or a
panic (used for out-of-bounds string slicing such as `&s[1..2]`). -/
inductive RustResult (ε α : Type) where
  | ok : α → RustResult ε α
  | err : ε → RustResult ε α
  | panicked : RustResult ε α
deriving DecidableEq, Repr

/-- Returns `true` iff the result is `ok`. -/
def RustResult.isOk {ε α : Type} : RustResult ε α → Bool
  | .ok _ => true
  | _ => false

/-- UTF-8 continuation byte: `0b10xxxxxx`. -/
def isCont (b : Nat) : Bool := 0x80 ≤ b && b < 0xC0

/-- Model of Rust `str::is_char_boundary(i)` on the UTF-8 bytes of the
string: `i = 0`, or `i` equals the length, or the byte at `i` exists and is
not a continuation byte. -/
def isCharBoundary (s : List Nat) (i : Nat) : Bool :=
  i == 0 || i == s.length || (decide (i < s.length) && !isCont (s.getD i 0))

/-- Model of Rust `s.get(..1)`: `some` of the first byte slice when byte
index 1 is a char boundary of `s` (which requires `s` non-empty), `none`
otherwise.  On the empty string and on a string whose first character is
multi-byte this is `none`. -/
def strGetTo1 (s : List Nat) : Option (List Nat) :=
  if isCharBoundary s 1 then some (s.take 1) else none

/-- Model of the Rust slice expression `&s[a..b]`: `some` of the byte
sub-slice when `a ≤ b` and both `a` and `b` are char boundaries of `s`;
`none` models the panic raised otherwise. -/
def strSlice (s : List Nat) (a b : Nat) : Option (List Nat) :=
  if a ≤ b && isCharBoundary s a && isCharBoundary s b then
    some ((s.drop a).take (b - a))
  else
    none

/-- UTF-8 bytes of an ASCII string literal (every code string in the source
is ASCII, so mapping `Char.toNat` over the characters is the exact UTF-8
encoding). -/
def ascii (s : String) : List Nat := s.toList.map Char.toNat

/-- Rendering of a byte sequence back to text, used to model
`format!("Unknown master code: {}", s)` (exact for ASCII input). -/
def bytesToStr (s : List Nat) : String := String.mk (s.map Char.ofNat)

/-- A byte list whose head, if any, is not a UTF-8 continuation byte.  Every
valid UTF-8 string satisfies this, so it encodes "`t` is the byte sequence
of a Rust `&str` suffix". -/
def headNotCont (t : List Nat) : Bool :=
  match t with
  | [] => true
  | b :: _ => !isCont b

/-- Model of `enum SelfAddressing` from `src/derivation/self_addressing.rs`: the
self-addressing (digest) derivation codes, the two Blake2 256-bit variants
carrying a key (`Vec<u8>`). -/
inductive SelfAddressing where
  | Blake3_256 : SelfAddressing
  | Blake2B256 : List Nat → SelfAddressing
  | Blake2S256 : List Nat → SelfAddressing
  | SHA3_256 : SelfAddressing
  | SHA2_256 : SelfAddressing
  | Blake3_512 : SelfAddressing
  | SHA3_512 : SelfAddressing
  | Blake2B512 : SelfAddressing
  | SHA2_512 : SelfAddressing
deriving DecidableEq, Repr

/-- Model of `enum SelfSigning` from `src/derivation/self_signing.rs`. -/
inductive SelfSigning where
  | Ed25519Sha512 : SelfSigning
  | ECDSAsecp256k1Sha256 : SelfSigning
  | Ed448 : SelfSigning
deriving DecidableEq, Repr

/-- Source method `DerivationCode::code_len` for `SelfAddressing`
(`self_addressing.rs` lines 53-62). -/
def SelfAddressing.code_len : SelfAddressing → Nat
  | .Blake3_256 | .Blake2B256 _ | .Blake2S256 _ | .SHA3_256 | .SHA2_256 => 1
  | .Blake3_512 | .SHA3_512 | .Blake2B512 | .SHA2_512 => 2

/-- Source method `DerivationCode::derivative_b64_len` for `SelfAddressing`
(lines 64-72). -/
def SelfAddressing.derivative_b64_len : SelfAddressing → Nat
  | .Blake3_256 | .Blake2B256 _ | .Blake2S256 _ | .SHA3_256 | .SHA2_256 => 43
  | .Blake3_512 | .SHA3_512 | .Blake2B512 | .SHA2_512 => 86

/-- Source method `DerivationCode::to_str` for `SelfAddressing` (lines 74-87). -/
def SelfAddressing.to_str : SelfAddressing → String
  | .Blake3_256 => "E"
  | .Blake2B256 _ => "F"
  | .Blake2S256 _ => "G"
  | .SHA3_256 => "H"
  | .SHA2_256 => "I"
  | .Blake3_512 => "0D"
  | .SHA3_512 => "0E"
  | .Blake2B512 => "0F"
  | .SHA2_512 => "0G"

/-- The `DerivationCode` trait's default `prefix_b64_len` method
(`src/derivation/mod.rs` lines 15-17), not overridden by `SelfAddressing`. -/
def SelfAddressing.prefix_b64_len (v : SelfAddressing) : Nat :=
  SelfAddressing.code_len v + SelfAddressing.derivative_b64_len v

/-- Source method `DerivationCode::code_len` for `SelfSigning` (`self_signing.rs`
lines 26-31). -/
def SelfSigning.code_len : SelfSigning → Nat
  | .Ed25519Sha512 | .ECDSAsecp256k1Sha256 => 2
  | .Ed448 => 4

/-- Source method `DerivationCode::derivative_b64_len` for `SelfSigning` (lines 33-38). -/
def SelfSigning.derivative_b64_len : SelfSigning → Nat
  | .Ed25519Sha512 | .ECDSAsecp256k1Sha256 => 86
  | .Ed448 => 152

/-- Source method `DerivationCode::to_str` for `SelfSigning` (lines 40-46). -/
def SelfSigning.to_str : SelfSigning → String
  | .Ed25519Sha512 => "0B"
  | .ECDSAsecp256k1Sha256 => "0C"
  | .Ed448 => "1AAE"

/-- The `DerivationCode` trait's default `prefix_b64_len` method for
`SelfSigning`, not overridden. -/
def SelfSigning.prefix_b64_len (v : SelfSigning) : Nat :=
  SelfSigning.code_len v + SelfSigning.derivative_b64_len v

/-- Source impl `FromStr for SelfAddressing` (`self_addressing.rs` lines 90-115),
on the UTF-8 bytes of the input.  `s.get(..1)` failing gives the
`"Empty prefix"` error; in the `"0"` branch the slice `&s[1..2]` panics when
byte index 2 is out of bounds or not a char boundary. -/
def SelfAddressing.fromStr (s : List Nat) : RustResult Error SelfAddressing :=
  match strGetTo1 s with
  | none => .err (.DeserializeError "Empty prefix")
  | some c =>
    if c = ascii "E" then .ok .Blake3_256
    else if c = ascii "F" then .ok (.Blake2B256 [])
    else if c = ascii "G" then .ok (.Blake2S256 [])
    else if c = ascii "H" then .ok .SHA3_256
    else if c = ascii "I" then .ok .SHA2_256
    else if c = ascii "0" then
      match strSlice s 1 2 with
      | none => .panicked
      | some c2 =>
        if c2 = ascii "D" then .ok .Blake3_512
        else if c2 = ascii "E" then .ok .SHA3_512
        else if c2 = ascii "F" then .ok .Blake2B512
        else if c2 = ascii "G" then .ok .SHA2_512
        else .err (.DeserializeError "Unknown hash code")
    else .err (.DeserializeError "Unknown hash algorithm code")

/-- Source impl `FromStr for SelfSigning` (`self_signing.rs` lines 52-79), on the
UTF-8 bytes of the input.  The `"1"` branch slices `&s[1..4]`, which panics
when byte index 4 is out of bounds or not a char boundary. -/
def SelfSigning.fromStr (s : List Nat) : RustResult Error SelfSigning :=
  match strGetTo1 s with
  | none => .err (.DeserializeError "Empty prefix")
  | some c =>
    if c = ascii "0" then
      match strSlice s 1 2 with
      | none => .panicked
      | some c2 =>
        if c2 = ascii "B" then .ok .Ed25519Sha512
        else if c2 = ascii "C" then .ok .ECDSAsecp256k1Sha256
        else .err (.DeserializeError "Unknown signature type code")
    else if c = ascii "1" then
      match strSlice s 1 4 with
      | none => .panicked
      | some c2 =>
        if c2 = ascii "AAE" then .ok .Ed448
        else .err (.DeserializeError "Unknown signature type code")
    else .err (.DeserializeError ("Unknown master code: " ++ bytesToStr s))

/-- The variant with the stored key, if any, replaced by the empty key: what
`from_str` reconstructs for the keyed Blake2 variants (the code string does
not carry the key). -/
def SelfAddressing.withEmptyKey : SelfAddressing → SelfAddressing
  | .Blake2B256 _ => .Blake2B256 []
  | .Blake2S256 _ => .Blake2S256 []
  | v => v

/-- The external hash primitives called by `self_addressing.rs`
(crates `blake3`, `blake2`, `sha2`, `sha3` — not part of this repository).
Each field models one crate entry point as an arbitrary function together
with the output-length guarantee its crate type carries:
`blake3::hash` returns `[u8; 32]`; `VarBlake2s::new_keyed(key, 256)` /
`VarBlake2b::new_keyed(key, 256)` finalize to 256 bits = 32 bytes;
`OutputReader::fill` writes exactly the buffer's length; `Blake2b`,
`Sha512`, `Sha3_512` finalize to 64 bytes; `Sha256`, `Sha3_256` to 32. -/
structure HashImpls where
  blake3_hash : List Nat → List Nat
  blake3_hash_len : ∀ x, (blake3_hash x).length = 32
  blake2s_keyed_256 : List Nat → List Nat → List Nat
  blake2s_keyed_256_len : ∀ k x, (blake2s_keyed_256 k x).length = 32
  blake2b_keyed_256 : List Nat → List Nat → List Nat
  blake2b_keyed_256_len : ∀ k x, (blake2b_keyed_256 k x).length = 32
  blake3_xof : List Nat → Nat → List Nat
  blake3_xof_len : ∀ x n, (blake3_xof x n).length = n
  blake2b_fixed : List Nat → List Nat
  blake2b_fixed_len : ∀ x, (blake2b_fixed x).length = 64
  sha3_256 : List Nat → List Nat
  sha3_256_len : ∀ x, (sha3_256 x).length = 32
  sha2_256 : List Nat → List Nat
  sha2_256_len : ∀ x, (sha2_256 x).length = 32
  sha3_512 : List Nat → List Nat
  sha3_512_len : ∀ x, (sha3_512 x).length = 64
  sha2_512 : List Nat → List Nat
  sha2_512_len : ∀ x, (sha2_512 x).length = 64

/-- Source helper `blake3_256_digest` (`self_addressing.rs` lines 117-119):
`blake3::hash(input).as_bytes().to_vec()`. -/
def blake3_256_digest (H : HashImpls) (input : List Nat) : List Nat :=
  H.blake3_hash input

/-- Source helper `blake2s_256_digest` (lines 121-126): `VarBlake2s::new_keyed(key, 256)`,
update, `finalize_boxed`. -/
def blake2s_256_digest (H : HashImpls) (input key : List Nat) : List Nat :=
  H.blake2s_keyed_256 key input

/-- Source helper `blake2b_256_digest` (lines 130-135): `VarBlake2b::new_keyed(key, 256)`,
update, `finalize_boxed`. -/
def blake2b_256_digest (H : HashImpls) (input key : List Nat) : List Nat :=
  H.blake2b_keyed_256 key input

/-- Source helper `blake3_512_digest` (lines 137-142): fills a 64-byte buffer from the
Blake3 XOF. -/
def blake3_512_digest (H : HashImpls) (input : List Nat) : List Nat :=
  H.blake3_xof input 64

/-- Source helper `blake2b_512_digest` (lines 144-148): fixed-output `Blake2b`. -/
def blake2b_512_digest (H : HashImpls) (input : List Nat) : List Nat :=
  H.blake2b_fixed input

/-- Source helper `sha3_256_digest` (lines 150-154). -/
def sha3_256_digest (H : HashImpls) (input : List Nat) : List Nat :=
  H.sha3_256 input

/-- Source helper `sha2_256_digest` (lines 156-160). -/
def sha2_256_digest (H : HashImpls) (input : List Nat) : List Nat :=
  H.sha2_256 input

/-- Source helper `sha3_512_digest` (lines 162-166). -/
def sha3_512_digest (H : HashImpls) (input : List Nat) : List Nat :=
  H.sha3_512 input

/-- Source helper `sha2_512_digest` (lines 168-172). -/
def sha2_512_digest (H : HashImpls) (input : List Nat) : List Nat :=
  H.sha2_512 input

/-- Source method `SelfAddressing::digest` (lines 32-44): routes each variant to its hash
helper, keyed variants passing their stored key. -/
def SelfAddressing.digest (H : HashImpls) :
    SelfAddressing → List Nat → List Nat
  | .Blake3_256, data => blake3_256_digest H data
  | .Blake2B256 key, data => blake2b_256_digest H data key
  | .Blake2S256 key, data => blake2s_256_digest H data key
  | .SHA3_256, data => sha3_256_digest H data
  | .SHA2_256, data => sha2_256_digest H data
  | .Blake3_512, data => blake3_512_digest H data
  | .SHA3_512, data => sha3_512_digest H data
  | .Blake2B512, data => blake2b_512_digest H data
  | .SHA2_512, data => sha2_512_digest H data

/-- Modelled from the spec: `SelfAddressingPrefix` lives in the `prefix`
module, which is not under `src/`; per the spec, `derive` produces "the
pairing of the originating variant with digest(data)", so the type is
modelled as that pair. -/
structure SelfAddressingPrefixModel where
  derivation : SelfAddressing
  digest : List Nat
deriving DecidableEq, Repr

/-- Modelled from the spec: `SelfAddressingPrefix::new`, the pairing
constructor. -/
def SelfAddressingPrefixModel.new (d : SelfAddressing) (g : List Nat) :
    SelfAddressingPrefixModel :=
  ⟨d, g⟩

/-- Source method `SelfAddressing::derive` (lines 46-48):
`SelfAddressingPrefix::new(self.to_owned(), self.digest(data))`. -/
def SelfAddressing.derive (H : HashImpls) (v : SelfAddressing)
    (data : List Nat) : SelfAddressingPrefixModel :=
  SelfAddressingPrefixModel.new v (SelfAddressing.digest H v data)

/-- Modelled from the spec: `SelfSigningPrefix` lives in the `prefix`
module, which is not under `src/`; per the spec it is the pairing of a
signing variant with already-produced signature bytes. -/
structure SelfSigningPrefixModel where
  derivation : SelfSigning
  signature : List Nat
deriving DecidableEq, Repr

/-- Modelled from the spec: `SelfSigningPrefix::new`, the pairing
constructor. -/
def SelfSigningPrefixModel.new (d : SelfSigning) (sig : List Nat) :
    SelfSigningPrefixModel :=
  ⟨d, sig⟩

/-- Source method `SelfSigning::derive` (`self_signing.rs` lines 19-21):
`SelfSigningPrefix::new(*self, sig)`. -/
def SelfSigning.derive (v : SelfSigning) (sig : List Nat) :
    SelfSigningPrefixModel :=
  SelfSigningPrefixModel.new v sig

/-- A concrete instantiation of the hash primitives (each hash replaced by a
constant function of the right length), used only to evaluate the generic
definitions on concrete inputs. -/
def zeroHashes : HashImpls where
  blake3_hash := fun _ => List.replicate 32 0
  blake3_hash_len := fun _ => List.length_replicate ..
  blake2s_keyed_256 := fun _ _ => List.replicate 32 0
  blake2s_keyed_256_len := fun _ _ => List.length_replicate ..
  blake2b_keyed_256 := fun _ _ => List.replicate 32 0
  blake2b_keyed_256_len := fun _ _ => List.length_replicate ..
  blake3_xof := fun _ n => List.replicate n 0
  blake3_xof_len := fun _ _ => List.length_replicate ..
  blake2b_fixed := fun _ => List.replicate 64 0
  blake2b_fixed_len := fun _ => List.length_replicate ..
  sha3_256 := fun _ => List.replicate 32 0
  sha3_256_len := fun _ => List.length_replicate ..
  sha2_256 := fun _ => List.replicate 32 0
  sha2_256_len := fun _ => List.length_replicate ..
  sha3_512 := fun _ => List.replicate 64 0
  sha3_512_len := fun _ => List.length_replicate ..
  sha2_512 := fun _ => List.replicate 64 0
  sha2_512_len := fun _ => List.length_replicate ..

/-!
## Theorems for the claims
-/

/-- C1: for every `SelfAddressing` variant, `code_len`/`derivative_b64_len`
are 1/43 for the 256-bit-class variants and 2/86 for the 512-bit-class
variants; for every `SelfSigning` variant they are 2/86 (Ed25519, ECDSA)
and 4/152 (Ed448); and `to_str` returns exactly the master-table code
string (E, F, G, H, I, 0D, 0E, 0F, 0G, 0B, 0C, 1AAE). -/
theorem c1_code_tables :
    (SelfAddressing.code_len .Blake3_256 = 1 ∧
      SelfAddressing.derivative_b64_len .Blake3_256 = 43 ∧
      SelfAddressing.to_str .Blake3_256 = "E") ∧
    (∀ key, SelfAddressing.code_len (.Blake2B256 key) = 1 ∧
      SelfAddressing.derivative_b64_len (.Blake2B256 key) = 43 ∧
      SelfAddressing.to_str (.Blake2B256 key) = "F") ∧
    (∀ key, SelfAddressing.code_len (.Blake2S256 key) = 1 ∧
      SelfAddressing.derivative_b64_len (.Blake2S256 key) = 43 ∧
      SelfAddressing.to_str (.Blake2S256 key) = "G") ∧
    (SelfAddressing.code_len .SHA3_256 = 1 ∧
      SelfAddressing.derivative_b64_len .SHA3_256 = 43 ∧
      SelfAddressing.to_str .SHA3_256 = "H") ∧
    (SelfAddressing.code_len .SHA2_256 = 1 ∧
      SelfAddressing.derivative_b64_len .SHA2_256 = 43 ∧
      SelfAddressing.to_str .SHA2_256 = "I") ∧
    (SelfAddressing.code_len .Blake3_512 = 2 ∧
      SelfAddressing.derivative_b64_len .Blake3_512 = 86 ∧
      SelfAddressing.to_str .Blake3_512 = "0D") ∧
    (SelfAddressing.code_len .SHA3_512 = 2 ∧
      SelfAddressing.derivative_b64_len .SHA3_512 = 86 ∧
      SelfAddressing.to_str .SHA3_512 = "0E") ∧
    (SelfAddressing.code_len .Blake2B512 = 2 ∧
      SelfAddressing.derivative_b64_len .Blake2B512 = 86 ∧
      SelfAddressing.to_str .Blake2B512 = "0F") ∧
    (SelfAddressing.code_len .SHA2_512 = 2 ∧
      SelfAddressing.derivative_b64_len .SHA2_512 = 86 ∧
      SelfAddressing.to_str .SHA2_512 = "0G") ∧
    (SelfSigning.code_len .Ed25519Sha512 = 2 ∧
      SelfSigning.derivative_b64_len .Ed25519Sha512 = 86 ∧
      SelfSigning.to_str .Ed25519Sha512 = "0B") ∧
    (SelfSigning.code_len .ECDSAsecp256k1Sha256 = 2 ∧
      SelfSigning.derivative_b64_len .ECDSAsecp256k1Sha256 = 86 ∧
      SelfSigning.to_str .ECDSAsecp256k1Sha256 = "0C") ∧
    (SelfSigning.code_len .Ed448 = 4 ∧
      SelfSigning.derivative_b64_len .Ed448 = 152 ∧
      SelfSigning.to_str .Ed448 = "1AAE") :=
  ⟨⟨rfl, rfl, rfl⟩, fun _ => ⟨rfl, rfl, rfl⟩, fun _ => ⟨rfl, rfl, rfl⟩,
    ⟨rfl, rfl, rfl⟩, ⟨rfl, rfl, rfl⟩, ⟨rfl, rfl, rfl⟩, ⟨rfl, rfl, rfl⟩,
    ⟨rfl, rfl, rfl⟩, ⟨rfl, rfl, rfl⟩, ⟨rfl, rfl, rfl⟩, ⟨rfl, rfl, rfl⟩,
    ⟨rfl, rfl, rfl⟩⟩

/-- C2: parsing a variant's own code string round-trips — `from_str` on
`v.to_str()` succeeds and returns `v`, except that the keyed Blake2
variants come back with an empty key regardless of the stored key. -/
theorem c2_roundtrip :
    (∀ v : SelfAddressing,
      SelfAddressing.fromStr (ascii (SelfAddressing.to_str v)) =
        .ok (SelfAddressing.withEmptyKey v)) ∧
    (∀ v : SelfSigning,
      SelfSigning.fromStr (ascii (SelfSigning.to_str v)) = .ok v) := by
  constructor
  · intro v
    cases v <;> rfl
  · intro v
    cases v <;> rfl

/-- C4: for every variant, every key stored in a keyed variant, and every
input byte sequence, `digest` returns exactly 32 bytes for the
256-bit-class variants and exactly 64 bytes for the 512-bit-class
variants (for any implementation of the external hash crates meeting
their output-size contracts). -/
theorem c4_digest_lengths (H : HashImpls) (data key : List Nat) :
    (SelfAddressing.digest H .Blake3_256 data).length = 32 ∧
    (SelfAddressing.digest H (.Blake2B256 key) data).length = 32 ∧
    (SelfAddressing.digest H (.Blake2S256 key) data).length = 32 ∧
    (SelfAddressing.digest H .SHA3_256 data).length = 32 ∧
    (SelfAddressing.digest H .SHA2_256 data).length = 32 ∧
    (SelfAddressing.digest H .Blake3_512 data).length = 64 ∧
    (SelfAddressing.digest H .SHA3_512 data).length = 64 ∧
    (SelfAddressing.digest H .Blake2B512 data).length = 64 ∧
    (SelfAddressing.digest H .SHA2_512 data).length = 64 :=
  ⟨H.blake3_hash_len data, H.blake2b_keyed_256_len key data,
    H.blake2s_keyed_256_len key data, H.sha3_256_len data,
    H.sha2_256_len data, H.blake3_xof_len data 64, H.sha3_512_len data,
    H.blake2b_fixed_len data, H.sha2_512_len data⟩

/-- C5: for every `SelfAddressing` variant (keyed variants with any stored
key) and every input, `digest` and `derive` are total functions (no error
path) and `derive data` is exactly the pairing of the originating variant
with `digest data`. -/
theorem c5_derive_pairs_digest (H : HashImpls) (v : SelfAddressing)
    (data : List Nat) :
    SelfAddressing.derive H v data =
      SelfAddressingPrefixModel.new v (SelfAddressing.digest H v data) ∧
    (SelfAddressing.derive H v data).derivation = v ∧
    (SelfAddressing.derive H v data).digest = SelfAddressing.digest H v data :=
  ⟨rfl, rfl, rfl⟩

/-- C8: for every `SelfSigning` variant and every signature byte sequence
of any length, `derive sig` succeeds and is exactly the pair of the
variant with the unmodified signature bytes. -/
theorem c8_sig_derive_pairs (v : SelfSigning) (sig : List Nat) :
    SelfSigning.derive v sig = SelfSigningPrefixModel.new v sig ∧
    (SelfSigning.derive v sig).derivation = v ∧
    (SelfSigning.derive v sig).signature = sig :=
  ⟨rfl, rfl, rfl⟩

/-- C9: for every variant of either catalog, the trait-default
`prefix_b64_len` equals `code_len + derivative_b64_len`. -/
theorem c9_prefix_len_sum :
    (∀ v : SelfAddressing,
      SelfAddressing.prefix_b64_len v =
        SelfAddressing.code_len v + SelfAddressing.derivative_b64_len v) ∧
    (∀ v : SelfSigning,
      SelfSigning.prefix_b64_len v =
        SelfSigning.code_len v + SelfSigning.derivative_b64_len v) :=
  ⟨fun _ => rfl, fun _ => rfl⟩

/-- Taking the first byte of `a :: t` succeeds whenever `t` does not start
with a continuation byte (in particular whenever `a :: t` is the encoding
of a Rust string). -/
theorem strGetTo1_cons (a : Nat) (t : List Nat) (ht : headNotCont t = true) :
    strGetTo1 (a :: t) = some [a] := by
  cases t with
  | nil => rfl
  | cons b t' =>
    have hb : isCont b = false := by simpa [headNotCont] using ht
    have hcb : isCharBoundary (a :: b :: t') 1 = true := by
      simp [isCharBoundary, hb]
    simp [strGetTo1, hcb]

/-- Slicing `&s[1..2]` on a string of shape `a :: b :: t` yields `[b]` when
`b` starts a character and `t` does not start with a continuation byte. -/
theorem strSlice_one_two (a b : Nat) (t : List Nat) (hb : isCont b = false)
    (ht : headNotCont t = true) :
    strSlice (a :: b :: t) 1 2 = some [b] := by
  have h1 : isCharBoundary (a :: b :: t) 1 = true := by
    simp [isCharBoundary, hb]
  have h2 : isCharBoundary (a :: b :: t) 2 = true := by
    cases t with
    | nil => rfl
    | cons c t' =>
      have hc : isCont c = false := by simpa [headNotCont] using ht
      simp [isCharBoundary, hc]
  simp [strSlice, h1, h2]

/-- Slicing `&s[1..4]` on a string of shape `a :: b :: c :: d :: t` yields
`[b, c, d]` when `b` starts a character and `t` does not start with a
continuation byte. -/
theorem strSlice_one_four (a b c d : Nat) (t : List Nat)
    (hb : isCont b = false) (ht : headNotCont t = true) :
    strSlice (a :: b :: c :: d :: t) 1 4 = some [b, c, d] := by
  have h1 : isCharBoundary (a :: b :: c :: d :: t) 1 = true := by
    simp [isCharBoundary, hb]
  have h4 : isCharBoundary (a :: b :: c :: d :: t) 4 = true := by
    cases t with
    | nil => rfl
    | cons e t' =>
      have he : isCont e = false := by simpa [headNotCont] using ht
      simp [isCharBoundary, he]
  simp [strSlice, h1, h4]

/-- C3: the spec says every invalid input fails with a `DeserializeError`,
never a panic — but evaluating the code at the short inputs shows the
slice expressions `&s[1..2]` / `&s[1..4]` panic: parsing `"0"` panics in
both catalogs, and parsing `"1"`, `"1A"`, `"1AA"` panics in `SelfSigning`,
instead of returning an error. -/
theorem c3_short_inputs_panic :
    SelfAddressing.fromStr (ascii "0") = .panicked ∧
    SelfSigning.fromStr (ascii "0") = .panicked ∧
    SelfSigning.fromStr (ascii "1") = .panicked ∧
    SelfSigning.fromStr (ascii "1A") = .panicked ∧
    SelfSigning.fromStr (ascii "1AA") = .panicked := by
  decide

/-- C7: parsing consumes only the leading code characters — for every
variant `v` and every byte sequence `t` that can follow it inside a Rust
string (its head is not a UTF-8 continuation byte), `from_str` on
`v.to_str()` followed by `t` succeeds and returns `v` (keyed variants with
an empty key), whatever `t` contains. -/
theorem c7_code_only_consumed :
    (∀ (v : SelfAddressing) (t : List Nat), headNotCont t = true →
      SelfAddressing.fromStr (ascii (SelfAddressing.to_str v) ++ t) =
        .ok (SelfAddressing.withEmptyKey v)) ∧
    (∀ (v : SelfSigning) (t : List Nat), headNotCont t = true →
      SelfSigning.fromStr (ascii (SelfSigning.to_str v) ++ t) = .ok v) := by
  constructor
  · intro v t ht
    cases v
    case Blake3_256 =>
      show SelfAddressing.fromStr (69 :: t) = .ok .Blake3_256
      rw [SelfAddressing.fromStr, strGetTo1_cons 69 t ht]
      simp +decide
    case Blake2B256 key =>
      show SelfAddressing.fromStr (70 :: t) = .ok (.Blake2B256 [])
      rw [SelfAddressing.fromStr, strGetTo1_cons 70 t ht]
      simp +decide
    case Blake2S256 key =>
      show SelfAddressing.fromStr (71 :: t) = .ok (.Blake2S256 [])
      rw [SelfAddressing.fromStr, strGetTo1_cons 71 t ht]
      simp +decide
    case SHA3_256 =>
      show SelfAddressing.fromStr (72 :: t) = .ok .SHA3_256
      rw [SelfAddressing.fromStr, strGetTo1_cons 72 t ht]
      simp +decide
    case SHA2_256 =>
      show SelfAddressing.fromStr (73 :: t) = .ok .SHA2_256
      rw [SelfAddressing.fromStr, strGetTo1_cons 73 t ht]
      simp +decide
    case Blake3_512 =>
      show SelfAddressing.fromStr (48 :: 68 :: t) = .ok .Blake3_512
      rw [SelfAddressing.fromStr, strGetTo1_cons 48 (68 :: t) rfl,
        strSlice_one_two 48 68 t (by decide) ht]
      simp +decide
    case SHA3_512 =>
      show SelfAddressing.fromStr (48 :: 69 :: t) = .ok .SHA3_512
      rw [SelfAddressing.fromStr, strGetTo1_cons 48 (69 :: t) rfl,
        strSlice_one_two 48 69 t (by decide) ht]
      simp +decide
    case Blake2B512 =>
      show SelfAddressing.fromStr (48 :: 70 :: t) = .ok .Blake2B512
      rw [SelfAddressing.fromStr, strGetTo1_cons 48 (70 :: t) rfl,
        strSlice_one_two 48 70 t (by decide) ht]
      simp +decide
    case SHA2_512 =>
      show SelfAddressing.fromStr (48 :: 71 :: t) = .ok .SHA2_512
      rw [SelfAddressing.fromStr, strGetTo1_cons 48 (71 :: t) rfl,
        strSlice_one_two 48 71 t (by decide) ht]
      simp +decide
  · intro v t ht
    cases v
    case Ed25519Sha512 =>
      show SelfSigning.fromStr (48 :: 66 :: t) = .ok .Ed25519Sha512
      rw [SelfSigning.fromStr, strGetTo1_cons 48 (66 :: t) rfl,
        strSlice_one_two 48 66 t (by decide) ht]
      simp +decide
    case ECDSAsecp256k1Sha256 =>
      show SelfSigning.fromStr (48 :: 67 :: t) = .ok .ECDSAsecp256k1Sha256
      rw [SelfSigning.fromStr, strGetTo1_cons 48 (67 :: t) rfl,
        strSlice_one_two 48 67 t (by decide) ht]
      simp +decide
    case Ed448 =>
      show SelfSigning.fromStr (49 :: 65 :: 65 :: 69 :: t) = .ok .Ed448
      rw [SelfSigning.fromStr, strGetTo1_cons 49 (65 :: 65 :: 69 :: t) rfl,
        strSlice_one_four 49 65 65 69 t (by decide) ht]
      simp +decide

/-- Witness for C7 at concrete inputs: the Blake3-256 code followed by
`"Xab"` parses back to Blake3-256, and the Ed448 code followed by the empty
suffix parses back to Ed448. -/
theorem c7_code_only_consumed_witness :
    SelfAddressing.fromStr
        (ascii (SelfAddressing.to_str .Blake3_256) ++ ascii "Xab") =
      .ok (SelfAddressing.withEmptyKey .Blake3_256) ∧
    SelfSigning.fromStr (ascii (SelfSigning.to_str .Ed448) ++ []) =
      .ok .Ed448 :=
  ⟨c7_code_only_consumed.1 .Blake3_256 (ascii "Xab") (by decide),
    c7_code_only_consumed.2 .Ed448 [] (by decide)⟩

/-- The formatted unknown-master-code message can never equal the
empty-input message (their lengths differ). -/
theorem unknownMaster_ne_empty (x : String) :
    ("Unknown master code: " ++ x) ≠ "Empty prefix" := by
  intro h
  have h2 := congrArg String.length h
  rw [String.length_append] at h2
  have ha : ("Unknown master code: ").length = 21 := rfl
  have hb : ("Empty prefix").length = 12 := rfl
  omega

/-- Byte values of the code strings appearing in the two `from_str`
implementations. -/
theorem ascii_E : ascii "E" = [69] := by decide

theorem ascii_F : ascii "F" = [70] := by decide

theorem ascii_G : ascii "G" = [71] := by decide

theorem ascii_H : ascii "H" = [72] := by decide

theorem ascii_I : ascii "I" = [73] := by decide

theorem ascii_D : ascii "D" = [68] := by decide

theorem ascii_B : ascii "B" = [66] := by decide

theorem ascii_C : ascii "C" = [67] := by decide

theorem ascii_zero : ascii "0" = [48] := by decide

theorem ascii_one : ascii "1" = [49] := by decide

theorem ascii_AAE : ascii "AAE" = [65, 65, 69] := by decide

/-- Byte index 1 fails to be a char boundary exactly when the string is
empty or its second byte exists and is a continuation byte (first
character multi-byte). -/
theorem isCharBoundary_one_false_iff (s : List Nat) :
    isCharBoundary s 1 = false ↔
      s = [] ∨ (1 < s.length ∧ isCont (s.getD 1 0) = true) := by
  cases s with
  | nil => simp [isCharBoundary]
  | cons a s' =>
    cases s' with
    | nil => simp [isCharBoundary]
    | cons b s'' => cases hb : isCont b <;> simp [isCharBoundary, hb]

/-- C6 counterexample: the input `"é"` (UTF-8 bytes `C3 A9`) is non-empty,
yet `SelfAddressing::from_str` returns the "Empty prefix" error on it —
so the empty-input error is not returned *exactly* on empty input. -/
theorem c6_counterexample :
    ([0xC3, 0xA9] : List Nat) ≠ [] ∧
    SelfAddressing.fromStr [0xC3, 0xA9] =
      .err (.DeserializeError "Empty prefix") := by
  decide

set_option maxHeartbeats 1600000 in
/-- C6 amended: both `from_str` functions return the "Empty prefix" error
exactly when taking the first character (`s.get(..1)`) fails, i.e. when
the input is empty or its first character is a multi-byte UTF-8 character;
every other outcome — success, panic, or an unknown-code error — carries a
message distinct from "Empty prefix", so the two failure causes remain
distinguishable wherever an error is returned. -/
theorem c6_amended_empty_error_iff (s : List Nat) :
    (SelfAddressing.fromStr s = .err (.DeserializeError "Empty prefix") ↔
      strGetTo1 s = none) ∧
    (SelfSigning.fromStr s = .err (.DeserializeError "Empty prefix") ↔
      strGetTo1 s = none) ∧
    (strGetTo1 s = none ↔
      s = [] ∨ (1 < s.length ∧ isCont (s.getD 1 0) = true)) := by
  refine ⟨?_, ?_, ?_⟩
  · cases hg : strGetTo1 s with
    | none => simp [SelfAddressing.fromStr, hg]
    | some c =>
      cases hs2 : strSlice s 1 2 with
      | none =>
        simp only [SelfAddressing.fromStr, hg, hs2, ascii_E, ascii_F, ascii_G,
          ascii_H, ascii_I, ascii_zero, ascii_D]
        split_ifs <;> simp
      | some c2 =>
        simp only [SelfAddressing.fromStr, hg, hs2, ascii_E, ascii_F, ascii_G,
          ascii_H, ascii_I, ascii_zero, ascii_D]
        split_ifs <;> simp
  · cases hg : strGetTo1 s with
    | none => simp [SelfSigning.fromStr, hg]
    | some c =>
      cases hs2 : strSlice s 1 2 with
      | none =>
        cases hs4 : strSlice s 1 4 with
        | none =>
          simp only [SelfSigning.fromStr, hg, hs2, hs4, ascii_zero, ascii_one, ascii_B,
          ascii_C, ascii_AAE]
          split_ifs <;> simp [unknownMaster_ne_empty]
        | some c4 =>
          simp only [SelfSigning.fromStr, hg, hs2, hs4, ascii_zero, ascii_one, ascii_B,
          ascii_C, ascii_AAE]
          split_ifs <;> simp [unknownMaster_ne_empty]
      | some c2 =>
        cases hs4 : strSlice s 1 4 with
        | none =>
          simp only [SelfSigning.fromStr, hg, hs2, hs4, ascii_zero, ascii_one, ascii_B,
          ascii_C, ascii_AAE]
          split_ifs <;> simp [unknownMaster_ne_empty]
        | some c4 =>
          simp only [SelfSigning.fromStr, hg, hs2, hs4, ascii_zero, ascii_one, ascii_B,
          ascii_C, ascii_AAE]
          split_ifs <;> simp [unknownMaster_ne_empty]
  · cases hcb : isCharBoundary s 1 with
    | false =>
      simpa [strGetTo1, hcb] using (isCharBoundary_one_false_iff s).mp hcb
    | true =>
      constructor
      · intro h
        simp [strGetTo1, hcb] at h
      · intro h
        have h2 := (isCharBoundary_one_false_iff s).mpr h
        rw [hcb] at h2
        simp at h2

set_option maxHeartbeats 1600000 in
/-- C10: the two catalogs recognize disjoint code spaces — no input byte
sequence is accepted by both `SelfAddressing::from_str` and
`SelfSigning::from_str`. -/
theorem c10_disjoint_catalogs (s : List Nat) :
    ((SelfAddressing.fromStr s).isOk && (SelfSigning.fromStr s).isOk) =
      false := by
  cases hg : strGetTo1 s with
  | none => simp [SelfAddressing.fromStr, SelfSigning.fromStr, hg, RustResult.isOk]
  | some c =>
    cases hs2 : strSlice s 1 2 with
    | none =>
      cases hs4 : strSlice s 1 4 with
      | none =>
        simp only [SelfAddressing.fromStr, SelfSigning.fromStr, hg, hs2, hs4,
          ascii_E, ascii_F, ascii_G, ascii_H, ascii_I, ascii_zero, ascii_one,
          ascii_D, ascii_B, ascii_C, ascii_AAE]
        split_ifs <;> simp_all [RustResult.isOk]
      | some c4 =>
        simp only [SelfAddressing.fromStr, SelfSigning.fromStr, hg, hs2, hs4,
          ascii_E, ascii_F, ascii_G, ascii_H, ascii_I, ascii_zero, ascii_one,
          ascii_D, ascii_B, ascii_C, ascii_AAE]
        split_ifs <;> simp_all [RustResult.isOk]
    | some c2 =>
      cases hs4 : strSlice s 1 4 with
      | none =>
        simp only [SelfAddressing.fromStr, SelfSigning.fromStr, hg, hs2, hs4,
          ascii_E, ascii_F, ascii_G, ascii_H, ascii_I, ascii_zero, ascii_one,
          ascii_D, ascii_B, ascii_C, ascii_AAE]
        split_ifs <;> simp_all [RustResult.isOk]
      | some c4 =>
        simp only [SelfAddressing.fromStr, SelfSigning.fromStr, hg, hs2, hs4,
          ascii_E, ascii_F, ascii_G, ascii_H, ascii_I, ascii_zero, ascii_one,
          ascii_D, ascii_B, ascii_C, ascii_AAE]
        split_ifs <;> simp_all [RustResult.isOk]
